import Mathlib

/-!
Verification of the ProductNaming web handler (src/app.py).

The repository is a single Flask application with one POST route,
generate_name. This file gives a shallow embedding of that handler as a
pure function from an explicit environment (client configuration,
telemetry configuration, the outcome of the external generation call and
of the telemetry emissions) to the HTTP response together with the list
of telemetry records emitted during the request, and proves the testable
properties of the specification against it.

Embedding conventions:
  - The OpenAI client handle is modelled by a boolean clientOk
    (app.py lines 26 to 32 and the pre-check at line 56).
  - The JSON request body is modelled as Except String Data where Data is
    an association list of string fields; Except.error d stands for
    request.get_json() raising (absent or unparseable body), with d the
    exception text.
  - The external generation call (lines 82 to 89) is modelled by a
    GenOutcome value supplied as input: success with text and token
    counts, an APIError carrying the provider status code, or any other
    exception.
  - Telemetry (wandb) is modelled by wandbEnabled (line 60) together with
    two booleans saying whether the success-path emission (lines 96 to
    117) and the error-path emission (lines 126 and 132) raise; a raise
    inside the try block reaches the catch-all handler, a raise inside an
    except block escapes the handler (modelled as Response.unhandled).
  - Python str.strip() is modelled by strip, dropping whitespace
    characters from both ends of the character list.
-/

namespace ProductNaming

/-- Python str.strip() with no arguments: remove surrounding whitespace. -/
def strip (s : String) : String :=
  ⟨((s.data.dropWhile Char.isWhitespace).reverse.dropWhile Char.isWhitespace).reverse⟩

/-- MODEL_NAME constant (app.py line 35). -/
def MODEL_NAME : String := "gpt-4o-mini"

/-- SYSTEM_PROMPT constant (app.py lines 36 to 41). -/
def SYSTEM_PROMPT : String :=
  "You are a highly irreverent, slightly broken marketing algorithm specializing in generating product "
    ++ "names, slogans, and descriptions that are utterly ridiculous, absurd, and nonsensical. "
    ++ "Your names must sound professionally stupid, like something a startup would try to pitch. "
    ++ "Respond only with the product details, formatted neatly using markdown headings."

/-- Error body when the OpenAI client is not configured (line 57). -/
def CONFIG_ERROR_MSG : String := "AI service is not configured. OPENAI_API_KEY is missing."

/-- Error body when a field is empty after stripping (line 68). -/
def VALIDATION_MSG : String := "Please provide both a product type and a key feature."

/-- Generic catch-all error body (line 133). -/
def INTERNAL_ERROR_MSG : String := "An internal server error occurred."

/-- Default for a missing product_type field (line 64). -/
def DEFAULT_PRODUCT_TYPE : String := "unnecessary gadget"

/-- Default for a missing key_feature field (line 65). -/
def DEFAULT_KEY_FEATURE : String := "vibrates every time you think about squirrels"

/-- Error body of the APIError handler (line 127). -/
def upstreamErrorMsg (statusCode : Nat) : String :=
  "OpenAI API failed: " ++ toString statusCode ++ ". Please check your key or rate limits."

/-- A JSON response body produced by jsonify in the handler: either the
success object with single key text, or an error object with single key
error. -/
inductive RespBody where
  | text (s : String)
  | error (s : String)
deriving DecidableEq, Repr

/-- The HTTP response of one request: a JSON body with a status code, or
an exception escaping the handler (raised inside an except block), in
which case the framework, not the handler, answers. -/
inductive Response where
  | json (body : RespBody) (status : Nat)
  | unhandled
deriving DecidableEq, Repr

/-- The arguments of the client.chat.completions.create call
(lines 82 to 87). -/
structure GenCall where
  model : String
  systemPrompt : String
  userPrompt : String
  temperature : ℚ
  maxTokens : Nat
deriving DecidableEq, Repr

/-- Outcome of the external generation call: the response object on
success (text plus usage counts), an APIError with its status code and
exception text, or any other exception with its text. -/
inductive GenOutcome where
  | success (text : String) (promptTokens completionTokens totalTokens : Nat)
  | apiError (statusCode : Nat) (detail : String)
  | otherError (detail : String)
deriving DecidableEq, Repr

/-- One record emitted to the telemetry sink. The success record models
the single wandb.log call of lines 109 to 116 together with the one-row
table of lines 96 to 106; the failure record models the wandb.log calls
of lines 126 and 132. -/
inductive TelemetryRecord where
  | success (timestamp : Nat) (model : String)
      (promptTokens completionTokens totalTokens : Nat)
      (input output productType keyFeature : String)
  | failure (errorMsg details : String)
deriving DecidableEq, Repr

/-- Everything the handler observes about the outside world, other than
the request body and the generation outcome. -/
structure Env where
  /-- The OpenAI client was constructed at startup (lines 26 to 32). -/
  clientOk : Bool
  /-- wandb.run is active and not disabled (line 60). -/
  wandbEnabled : Bool
  /-- the current time, as recorded by the timestamp of line 99. -/
  now : Nat
  /-- the success-path telemetry emission (lines 96 to 117) does not raise. -/
  successLogOk : Bool
  /-- the error-path telemetry emission (lines 126 and 132) does not raise. -/
  errorLogOk : Bool
  /-- exception text of a failed success-path telemetry emission. -/
  telemetryExcDetail : String
deriving DecidableEq, Repr

/-- The value of the handler on one request: the HTTP response, the
telemetry records emitted, and the generation call made (none if the
external service was never reached). -/
structure HandlerResult where
  response : Response
  records : List TelemetryRecord
  call : Option GenCall
deriving DecidableEq, Repr

/-- JSON body of a parsed request: fields are looked up by name. -/
abbrev Data := List (String × String)

/-- dict.get(key, default) on the parsed body (lines 64 and 65). -/
def dataGet (data : Data) (key dflt : String) : String :=
  match data.lookup key with
  | some v => v
  | none => dflt

/-- product_type local of line 64: field or default, then stripped. -/
def resolved_product_type (data : Data) : String :=
  strip (dataGet data "product_type" DEFAULT_PRODUCT_TYPE)

/-- key_feature local of line 65: field or default, then stripped. -/
def resolved_key_feature (data : Data) : String :=
  strip (dataGet data "key_feature" DEFAULT_KEY_FEATURE)

/-- prompt_user local of lines 70 to 73. -/
def prompt_user (product_type key_feature : String) : String :=
  "Generate a product concept for a " ++ product_type ++ " with the key feature: \x27"
    ++ key_feature
    ++ "\x27. Format the response strictly with these three sections: Name, Slogan, and Description."

/-- The except Exception handler (lines 128 to 133): when telemetry is
enabled it first attempts the error-record emission of line 132; if that
emission itself raises, the exception escapes the handler. Otherwise the
generic 500 is returned. -/
def handleUnexpected (env : Env) (call : Option GenCall) (detail : String) : HandlerResult :=
  if env.wandbEnabled then
    if env.errorLogOk then
      { response := Response.json (RespBody.error INTERNAL_ERROR_MSG) 500
        records := [TelemetryRecord.failure "Internal Server Error" detail]
        call := call }
    else
      { response := Response.unhandled, records := [], call := call }
  else
    { response := Response.json (RespBody.error INTERNAL_ERROR_MSG) 500
      records := []
      call := call }

/-- The except APIError handler (lines 122 to 127): when telemetry is
enabled it first attempts the error-record emission of line 126; if that
emission itself raises, the exception escapes the handler. Otherwise the
500 carrying the provider status code is returned. -/
def handleAPIError (env : Env) (call : Option GenCall) (statusCode : Nat) (detail : String) :
    HandlerResult :=
  if env.wandbEnabled then
    if env.errorLogOk then
      { response := Response.json (RespBody.error (upstreamErrorMsg statusCode)) 500
        records := [TelemetryRecord.failure ("OpenAI API failed: " ++ toString statusCode) detail]
        call := call }
    else
      { response := Response.unhandled, records := [], call := call }
  else
    { response := Response.json (RespBody.error (upstreamErrorMsg statusCode)) 500
      records := []
      call := call }

/-- Lines 67 to 120 of the handler, after the two locals of lines 64 and
65 have been resolved: validation, prompt construction, the generation
call, the success-path telemetry emission, and the success return. -/
def handle_request (env : Env) (product_type key_feature : String) (gen : GenOutcome) :
    HandlerResult :=
  if product_type = "" ∨ key_feature = "" then
    { response := Response.json (RespBody.error VALIDATION_MSG) 400, records := [], call := none }
  else
    let pu := prompt_user product_type key_feature
    let call : GenCall :=
      { model := MODEL_NAME
        systemPrompt := SYSTEM_PROMPT
        userPrompt := pu
        temperature := 9 / 10
        maxTokens := 512 }
    match gen with
    | GenOutcome.success text pt ct tt =>
      if env.wandbEnabled then
        if env.successLogOk then
          { response := Response.json (RespBody.text text) 200
            records :=
              [TelemetryRecord.success env.now MODEL_NAME pt ct tt pu text
                product_type key_feature]
            call := some call }
        else
          handleUnexpected env (some call) env.telemetryExcDetail
      else
        { response := Response.json (RespBody.text text) 200, records := [], call := some call }
    | GenOutcome.apiError statusCode d => handleAPIError env (some call) statusCode d
    | GenOutcome.otherError d => handleUnexpected env (some call) d

/-- The POST handler generate_name (lines 51 to 133): the client
pre-check of line 56, then the try block. Parsing the body
(request.get_json, line 63) happens inside the try block, so a parse
failure reaches the catch-all handler. -/
def generate_name (env : Env) (body : Except String Data) (gen : GenOutcome) : HandlerResult :=
  if env.clientOk then
    match body with
    | Except.error d => handleUnexpected env none d
    | Except.ok data =>
        handle_request env (resolved_product_type data) (resolved_key_feature data) gen
  else
    { response := Response.json (RespBody.error CONFIG_ERROR_MSG) 500
      records := []
      call := none }

/-! ### General lemmas about the embedding -/

/-- A string all of whose characters are whitespace strips to the empty
string. -/
theorem strip_eq_empty (s : String) (h : ∀ c ∈ s.data, c.isWhitespace = true) :
    strip s = "" := by
  unfold strip
  rw [List.dropWhile_eq_nil_iff.mpr h]
  rfl

/-- With the client configured, the handler on a parseable body is the
body of the try block applied to the two resolved fields. -/
theorem generate_name_ok (env : Env) (data : Data) (gen : GenOutcome)
    (hc : env.clientOk = true) :
    generate_name env (Except.ok data) gen
      = handle_request env (resolved_product_type data) (resolved_key_feature data) gen := by
  unfold generate_name
  rw [hc]
  rfl

/-- Unfolding of the try block past validation: with both resolved fields
nonempty, the handler reaches the generation call and dispatches on its
outcome. -/
theorem handle_request_nonempty (env : Env) (p k : String) (gen : GenOutcome)
    (hp : p ≠ "") (hk : k ≠ "") :
    handle_request env p k gen =
      (match gen with
      | GenOutcome.success text pt ct tt =>
        if env.wandbEnabled then
          if env.successLogOk then
            { response := Response.json (RespBody.text text) 200
              records :=
                [TelemetryRecord.success env.now MODEL_NAME pt ct tt (prompt_user p k) text p k]
              call := some (GenCall.mk MODEL_NAME SYSTEM_PROMPT (prompt_user p k) (9/10) 512) }
          else
            handleUnexpected env
              (some (GenCall.mk MODEL_NAME SYSTEM_PROMPT (prompt_user p k) (9/10) 512))
              env.telemetryExcDetail
        else
          { response := Response.json (RespBody.text text) 200, records := [],
            call := some (GenCall.mk MODEL_NAME SYSTEM_PROMPT (prompt_user p k) (9/10) 512) }
      | GenOutcome.apiError statusCode d =>
          handleAPIError env
            (some (GenCall.mk MODEL_NAME SYSTEM_PROMPT (prompt_user p k) (9/10) 512)) statusCode d
      | GenOutcome.otherError d =>
          handleUnexpected env
            (some (GenCall.mk MODEL_NAME SYSTEM_PROMPT (prompt_user p k) (9/10) 512)) d) := by
  unfold handle_request
  rw [if_neg (by simp [hp, hk])]

/-- If either resolved field is empty, the handler answers 400 with the
validation message (line 67 and 68). -/
theorem validation_response (env : Env) (data : Data) (gen : GenOutcome)
    (hc : env.clientOk = true)
    (h : resolved_product_type data = "" ∨ resolved_key_feature data = "") :
    (generate_name env (Except.ok data) gen).response
      = Response.json (RespBody.error VALIDATION_MSG) 400 := by
  rw [generate_name_ok env data gen hc]
  unfold handle_request
  rw [if_pos h]

/-! ### The claims -/

/-- C1 counterexample. The claim states that a failure of the telemetry
emission step never changes the HTTP response once generation has
succeeded. On the code this is false: the success-path wandb emission
(lines 96 to 117) sits inside the try block BEFORE the success return of
line 120, so when it raises, the catch-all handler of lines 128 to 133
answers instead. Concretely, the same request with the same successful
generation outcome yields 200 with the generated text when telemetry
emission succeeds, but the generic 500 when it fails. -/
theorem c1_telemetry_failure_counterexample :
    (generate_name (Env.mk true true 0 false true "sink failure")
        (Except.ok [("product_type", "lamp"), ("key_feature", "glows")])
        (GenOutcome.success "T" 1 2 3)).response
      ≠ (generate_name (Env.mk true true 0 true true "sink failure")
        (Except.ok [("product_type", "lamp"), ("key_feature", "glows")])
        (GenOutcome.success "T" 1 2 3)).response
    ∧ (generate_name (Env.mk true true 0 true true "sink failure")
        (Except.ok [("product_type", "lamp"), ("key_feature", "glows")])
        (GenOutcome.success "T" 1 2 3)).response
      = Response.json (RespBody.text "T") 200
    ∧ (generate_name (Env.mk true true 0 false true "sink failure")
        (Except.ok [("product_type", "lamp"), ("key_feature", "glows")])
        (GenOutcome.success "T" 1 2 3)).response
      = Response.json (RespBody.error INTERNAL_ERROR_MSG) 500 :=
  ⟨by decide, rfl, rfl⟩

/-- C1 amended: when generation succeeds but the success-path telemetry
emission raises, the exception is caught by the catch-all handler, which
(when its own error-record emission succeeds) returns the generic 500
internal error instead of the already-computed success payload, and emits
a failure record rather than a success record. -/
theorem c1_amended_telemetry_failure (env : Env) (data : Data) (text : String)
    (pt ct tt : Nat)
    (hc : env.clientOk = true) (hw : env.wandbEnabled = true)
    (hs : env.successLogOk = false) (he : env.errorLogOk = true)
    (hp : resolved_product_type data ≠ "") (hk : resolved_key_feature data ≠ "") :
    (generate_name env (Except.ok data) (GenOutcome.success text pt ct tt)).response
      = Response.json (RespBody.error INTERNAL_ERROR_MSG) 500
    ∧ (generate_name env (Except.ok data) (GenOutcome.success text pt ct tt)).records
      = [TelemetryRecord.failure "Internal Server Error" env.telemetryExcDetail] := by
  rw [generate_name_ok env data _ hc, handle_request_nonempty env _ _ _ hp hk]
  simp [hw, hs, handleUnexpected, he]

/-- C1 amended, witness at a concrete request. -/
theorem c1_amended_telemetry_failure_witness :
    (generate_name (Env.mk true true 0 false true "sink failure")
        (Except.ok [("product_type", "lamp"), ("key_feature", "glows")])
        (GenOutcome.success "T" 1 2 3)).response
      = Response.json (RespBody.error INTERNAL_ERROR_MSG) 500
    ∧ (generate_name (Env.mk true true 0 false true "sink failure")
        (Except.ok [("product_type", "lamp"), ("key_feature", "glows")])
        (GenOutcome.success "T" 1 2 3)).records
      = [TelemetryRecord.failure "Internal Server Error" "sink failure"] :=
  c1_amended_telemetry_failure (Env.mk true true 0 false true "sink failure")
    [("product_type", "lamp"), ("key_feature", "glows")] "T" 1 2 3
    rfl rfl rfl rfl (by decide) (by decide)

/-- C2 counterexample. The claim states that a body missing BOTH fields is
rejected with 400. On the code this is false: a missing field receives a
nonempty default (lines 64 and 65), so an empty JSON object passes
validation and the request proceeds to generation, answering 200 on
success rather than 400. -/
theorem c2_missing_both_counterexample :
    (generate_name (Env.mk true false 0 true true "d") (Except.ok [])
        (GenOutcome.success "T" 1 2 3)).response
      = Response.json (RespBody.text "T") 200
    ∧ (generate_name (Env.mk true false 0 true true "d") (Except.ok [])
        (GenOutcome.success "T" 1 2 3)).response
      ≠ Response.json (RespBody.error VALIDATION_MSG) 400 :=
  ⟨rfl, by decide⟩

/-- C2 amended: a POST request that SUPPLIES both fields with
whitespace-only values is answered 400 with the exact validation message
(a request missing the fields instead receives the nonempty defaults and
is not rejected). -/
theorem c2_amended_whitespace_fields (env : Env) (data : Data) (gen : GenOutcome)
    (s t : String) (hc : env.clientOk = true)
    (hs : data.lookup "product_type" = some s) (hsw : ∀ c ∈ s.data, c.isWhitespace = true)
    (_ht : data.lookup "key_feature" = some t) (_htw : ∀ c ∈ t.data, c.isWhitespace = true) :
    (generate_name env (Except.ok data) gen).response
      = Response.json (RespBody.error VALIDATION_MSG) 400 := by
  have h1 : resolved_product_type data = "" := by
    unfold resolved_product_type dataGet
    rw [hs]
    exact strip_eq_empty s hsw
  exact validation_response env data gen hc (Or.inl h1)

/-- C2 amended, witness at a concrete whitespace-only request. -/
theorem c2_amended_whitespace_fields_witness :
    (generate_name (Env.mk true false 0 true true "d")
        (Except.ok [("product_type", "  "), ("key_feature", " ")])
        (GenOutcome.success "T" 1 2 3)).response
      = Response.json (RespBody.error VALIDATION_MSG) 400 :=
  c2_amended_whitespace_fields (Env.mk true false 0 true true "d")
    [("product_type", "  "), ("key_feature", " ")]
    (GenOutcome.success "T" 1 2 3) "  " " "
    rfl rfl (by decide) rfl (by decide)

/-- C3: for the request with product_type lamp and key_feature
screams-when-unplugged, with the client configured and the generation
call returning text T (and the telemetry emission, if enabled, not
raising), the response is exactly the JSON success object with text T and
status 200, and the generation call is made with temperature 9/10 and
max_tokens 512 (so bounded output length), on model gpt-4o-mini. -/
theorem c3_stubbed_generation_success (env : Env) (text : String) (pt ct tt : Nat)
    (hc : env.clientOk = true) (hs : env.successLogOk = true) :
    (generate_name env
        (Except.ok [("product_type", "lamp"), ("key_feature", "screams when unplugged")])
        (GenOutcome.success text pt ct tt)).response
      = Response.json (RespBody.text text) 200
    ∧ ∃ c, (generate_name env
        (Except.ok [("product_type", "lamp"), ("key_feature", "screams when unplugged")])
        (GenOutcome.success text pt ct tt)).call = some c
      ∧ c.model = MODEL_NAME ∧ c.temperature = 9 / 10 ∧ c.maxTokens = 512 := by
  have h1 : resolved_product_type
      [("product_type", "lamp"), ("key_feature", "screams when unplugged")] = "lamp" := rfl
  have h2 : resolved_key_feature
      [("product_type", "lamp"), ("key_feature", "screams when unplugged")]
      = "screams when unplugged" := rfl
  rw [generate_name_ok env _ _ hc,
      handle_request_nonempty env _ _ _ (by rw [h1]; decide) (by rw [h2]; decide)]
  cases hwe : env.wandbEnabled <;> simp [hwe, hs]

/-- C3, witness at a concrete stub text with telemetry enabled. -/
theorem c3_stubbed_generation_success_witness :
    (generate_name (Env.mk true true 5 true true "d")
        (Except.ok [("product_type", "lamp"), ("key_feature", "screams when unplugged")])
        (GenOutcome.success "The LampShriek 9000" 10 20 30)).response
      = Response.json (RespBody.text "The LampShriek 9000") 200
    ∧ ∃ c, (generate_name (Env.mk true true 5 true true "d")
        (Except.ok [("product_type", "lamp"), ("key_feature", "screams when unplugged")])
        (GenOutcome.success "The LampShriek 9000" 10 20 30)).call = some c
      ∧ c.model = MODEL_NAME ∧ c.temperature = 9 / 10 ∧ c.maxTokens = 512 :=
  c3_stubbed_generation_success (Env.mk true true 5 true true "d")
    "The LampShriek 9000" 10 20 30 rfl rfl

/-- C4: whenever either field resolves (after defaulting and stripping)
to the empty string, the response is 400 with the exact body
error: Please provide both a product type and a key feature. -/
theorem c4_empty_field_validation (env : Env) (data : Data) (gen : GenOutcome)
    (hc : env.clientOk = true)
    (h : resolved_product_type data = "" ∨ resolved_key_feature data = "") :
    (generate_name env (Except.ok data) gen).response
      = Response.json (RespBody.error VALIDATION_MSG) 400 :=
  validation_response env data gen hc h

/-- C4, witness: a whitespace-only product_type with the key_feature left
to its default. -/
theorem c4_empty_field_validation_witness :
    (generate_name (Env.mk true true 0 true true "d")
        (Except.ok [("product_type", "   ")])
        (GenOutcome.success "T" 1 2 3)).response
      = Response.json (RespBody.error VALIDATION_MSG) 400 :=
  c4_empty_field_validation (Env.mk true true 0 true true "d")
    [("product_type", "   ")] (GenOutcome.success "T" 1 2 3) rfl (by decide)

/-- C5: when the client was not configured at startup, every POST request
is answered 500 with the configuration error body, before the body is
read or the generation call made, and no telemetry record at all (in
particular no success record) is emitted. -/
theorem c5_client_not_configured (env : Env) (body : Except String Data) (gen : GenOutcome)
    (hc : env.clientOk = false) :
    (generate_name env body gen).response
      = Response.json (RespBody.error CONFIG_ERROR_MSG) 500
    ∧ (generate_name env body gen).records = [] := by
  unfold generate_name
  rw [hc]
  simp

/-- C5, witness at a concrete well-formed request. -/
theorem c5_client_not_configured_witness :
    (generate_name (Env.mk false true 0 true true "d")
        (Except.ok [("product_type", "lamp"), ("key_feature", "glows")])
        (GenOutcome.success "T" 1 2 3)).response
      = Response.json (RespBody.error CONFIG_ERROR_MSG) 500
    ∧ (generate_name (Env.mk false true 0 true true "d")
        (Except.ok [("product_type", "lamp"), ("key_feature", "glows")])
        (GenOutcome.success "T" 1 2 3)).records = [] :=
  c5_client_not_configured (Env.mk false true 0 true true "d")
    (Except.ok [("product_type", "lamp"), ("key_feature", "glows")])
    (GenOutcome.success "T" 1 2 3) rfl

/-- C6: when the generation call raises an APIError with a given status
code (and the error-path telemetry emission, if enabled, does not raise),
the response is 500 and its error message contains the decimal rendering
of that status code. The witness instantiates the status code to 429 and
exhibits the literal substring 429. -/
theorem c6_upstream_error_surfaces_status (env : Env) (data : Data)
    (statusCode : Nat) (d : String)
    (hc : env.clientOk = true)
    (hp : resolved_product_type data ≠ "") (hk : resolved_key_feature data ≠ "")
    (he : env.errorLogOk = true) :
    (generate_name env (Except.ok data) (GenOutcome.apiError statusCode d)).response
      = Response.json (RespBody.error (upstreamErrorMsg statusCode)) 500
    ∧ ∃ pre post, upstreamErrorMsg statusCode = pre ++ toString statusCode ++ post := by
  constructor
  · rw [generate_name_ok env data _ hc, handle_request_nonempty env _ _ _ hp hk]
    cases hwe : env.wandbEnabled <;> simp [handleAPIError, hwe, he]
  · exact ⟨"OpenAI API failed: ", ". Please check your key or rate limits.", rfl⟩

/-- C6, witness at status code 429: the message contains 429. -/
theorem c6_upstream_error_surfaces_status_witness :
    ((generate_name (Env.mk true true 0 true true "d")
        (Except.ok [("product_type", "lamp"), ("key_feature", "glows")])
        (GenOutcome.apiError 429 "rate limited")).response
      = Response.json (RespBody.error (upstreamErrorMsg 429)) 500
    ∧ ∃ pre post, upstreamErrorMsg 429 = pre ++ toString 429 ++ post)
    ∧ ∃ pre post, upstreamErrorMsg 429 = pre ++ "429" ++ post :=
  ⟨c6_upstream_error_surfaces_status (Env.mk true true 0 true true "d")
      [("product_type", "lamp"), ("key_feature", "glows")] 429 "rate limited"
      rfl (by decide) (by decide) rfl,
    ⟨"OpenAI API failed: ", ". Please check your key or rate limits.", rfl⟩⟩

/-- C7: with telemetry enabled and the success-path emission not raising,
a successful generation emits exactly one record: a success record
holding the timestamp, the model identifier, the three token counts, the
user prompt passed to the generation call and the text it returned,
together with the two resolved inputs. -/
theorem c7_success_telemetry_record (env : Env) (data : Data) (text : String)
    (pt ct tt : Nat)
    (hc : env.clientOk = true) (hw : env.wandbEnabled = true) (hs : env.successLogOk = true)
    (hp : resolved_product_type data ≠ "") (hk : resolved_key_feature data ≠ "") :
    ∃ c, (generate_name env (Except.ok data) (GenOutcome.success text pt ct tt)).call = some c
      ∧ (generate_name env (Except.ok data) (GenOutcome.success text pt ct tt)).records
        = [TelemetryRecord.success env.now MODEL_NAME pt ct tt c.userPrompt text
            (resolved_product_type data) (resolved_key_feature data)] := by
  refine ⟨GenCall.mk MODEL_NAME SYSTEM_PROMPT
    (prompt_user (resolved_product_type data) (resolved_key_feature data)) (9/10) 512,
    ?_, ?_⟩ <;>
    rw [generate_name_ok env data _ hc, handle_request_nonempty env _ _ _ hp hk] <;>
    simp [hw, hs]

/-- C7, witness at a concrete request. -/
theorem c7_success_telemetry_record_witness :
    ∃ c, (generate_name (Env.mk true true 7 true true "d")
        (Except.ok [("product_type", "lamp"), ("key_feature", "glows")])
        (GenOutcome.success "T" 1 2 3)).call = some c
      ∧ (generate_name (Env.mk true true 7 true true "d")
        (Except.ok [("product_type", "lamp"), ("key_feature", "glows")])
        (GenOutcome.success "T" 1 2 3)).records
        = [TelemetryRecord.success 7 MODEL_NAME 1 2 3 c.userPrompt "T"
            (resolved_product_type [("product_type", "lamp"), ("key_feature", "glows")])
            (resolved_key_feature [("product_type", "lamp"), ("key_feature", "glows")])] :=
  c7_success_telemetry_record (Env.mk true true 7 true true "d")
    [("product_type", "lamp"), ("key_feature", "glows")] "T" 1 2 3
    rfl rfl rfl (by decide) (by decide)

/-- C8: for any body, each field it omits resolves, before the emptiness
check, to its stripped default: unnecessary gadget for product_type and
vibrates-every-time-you-think-about-squirrels for key_feature (both
defaults carry no surrounding whitespace, so stripping leaves them
unchanged). The two implications are independent, so a body omitting only
one of the fields is covered. -/
theorem c8_defaults_applied (data : Data) :
    (data.lookup "product_type" = none →
      resolved_product_type data = strip DEFAULT_PRODUCT_TYPE
      ∧ resolved_product_type data = "unnecessary gadget")
    ∧ (data.lookup "key_feature" = none →
      resolved_key_feature data = strip DEFAULT_KEY_FEATURE
      ∧ resolved_key_feature data = "vibrates every time you think about squirrels") := by
  constructor
  · intro h1
    have e1 : resolved_product_type data = strip DEFAULT_PRODUCT_TYPE := by
      unfold resolved_product_type dataGet
      rw [h1]
    exact ⟨e1, by rw [e1]; rfl⟩
  · intro h2
    have e2 : resolved_key_feature data = strip DEFAULT_KEY_FEATURE := by
      unfold resolved_key_feature dataGet
      rw [h2]
    exact ⟨e2, by rw [e2]; rfl⟩

/-- C8, witness at two single-omission bodies: one supplying only
product_type, the other supplying only key_feature. -/
theorem c8_defaults_applied_witness :
    resolved_key_feature [("product_type", "lamp")]
      = "vibrates every time you think about squirrels"
    ∧ resolved_product_type [("key_feature", "glows")] = "unnecessary gadget" :=
  ⟨((c8_defaults_applied [("product_type", "lamp")]).2 rfl).2,
    ((c8_defaults_applied [("key_feature", "glows")]).1 rfl).2⟩

/-- C9: an unanticipated exception (neither validation, nor missing
client, nor APIError) is answered, when the error-path telemetry
emission does not raise, with status 500 and the fixed generic body
error: An internal server error occurred. The right-hand side of the
equation is a constant in which the exception detail d does not occur,
so no internal detail reaches the client. -/
theorem c9_unexpected_error_generic_response (env : Env) (data : Data) (d : String)
    (hc : env.clientOk = true)
    (hp : resolved_product_type data ≠ "") (hk : resolved_key_feature data ≠ "")
    (he : env.errorLogOk = true) :
    (generate_name env (Except.ok data) (GenOutcome.otherError d)).response
      = Response.json (RespBody.error INTERNAL_ERROR_MSG) 500 := by
  rw [generate_name_ok env data _ hc, handle_request_nonempty env _ _ _ hp hk]
  cases hwe : env.wandbEnabled <;> simp [handleUnexpected, hwe, he]

/-- C9, witness at a concrete unexpected exception. -/
theorem c9_unexpected_error_generic_response_witness :
    (generate_name (Env.mk true true 0 true true "d")
        (Except.ok [("product_type", "lamp"), ("key_feature", "glows")])
        (GenOutcome.otherError "KeyError at line 89")).response
      = Response.json (RespBody.error INTERNAL_ERROR_MSG) 500 :=
  c9_unexpected_error_generic_response (Env.mk true true 0 true true "d")
    [("product_type", "lamp"), ("key_feature", "glows")] "KeyError at line 89"
    rfl (by decide) (by decide) rfl

/-- C10: with the client configured, a body that is absent or not
parseable as JSON raises inside the try block (line 63) and is answered
by the catch-all handler: the generic 500 internal error, not the 400
validation response. -/
theorem c10_unparseable_body_internal_error (env : Env) (d : String) (gen : GenOutcome)
    (hc : env.clientOk = true) (he : env.errorLogOk = true) :
    (generate_name env (Except.error d) gen).response
      = Response.json (RespBody.error INTERNAL_ERROR_MSG) 500
    ∧ (generate_name env (Except.error d) gen).response
      ≠ Response.json (RespBody.error VALIDATION_MSG) 400 := by
  have h : (generate_name env (Except.error d) gen).response
      = Response.json (RespBody.error INTERNAL_ERROR_MSG) 500 := by
    unfold generate_name
    rw [hc]
    cases hwe : env.wandbEnabled <;> simp [handleUnexpected, hwe, he]
  exact ⟨h, by rw [h]; decide⟩

/-- C10, witness at a concrete unparseable body. -/
theorem c10_unparseable_body_internal_error_witness :
    (generate_name (Env.mk true true 0 true true "d")
        (Except.error "400 Bad Request: Failed to decode JSON object")
        (GenOutcome.success "T" 1 2 3)).response
      = Response.json (RespBody.error INTERNAL_ERROR_MSG) 500
    ∧ (generate_name (Env.mk true true 0 true true "d")
        (Except.error "400 Bad Request: Failed to decode JSON object")
        (GenOutcome.success "T" 1 2 3)).response
      ≠ Response.json (RespBody.error VALIDATION_MSG) 400 :=
  c10_unparseable_body_internal_error (Env.mk true true 0 true true "d")
    "400 Bad Request: Failed to decode JSON object"
    (GenOutcome.success "T" 1 2 3) rfl rfl

end ProductNaming
